import Mathlib

/-!
Shallow embedding of `src/energy_meter.py`.

The module reads Intel RAPL hardware energy counters from the powercap
filesystem and falls back to CPU-time or elapsed-time estimates.  The
filesystem and the psutil CPU-time facility are the only environment the
code touches; they are modelled explicitly:

* a directory entry under `/sys/class/powercap` becomes a `RaplEntry`
  recording its name, whether its `energy_uj` file exists, the outcome of
  reading that file (`none` models an `OSError`/`ValueError`), whether its
  `max_energy_range_uj` file exists, and the outcome of reading it;
* the whole powercap tree becomes a `PowercapFS` (does the base directory
  exist, and its entries in directory-listing order);
* Python floats are modelled as exact rationals `ℚ`.
-/

/-- One directory entry of the powercap base directory.  `energyUjRead`
is the result of reading and parsing `energy_uj` (`none` models
`OSError`/`ValueError`); `maxRangeRead` likewise for
`max_energy_range_uj`. -/
structure RaplEntry where
  name : String
  hasEnergyUj : Bool
  energyUjRead : Option ℚ
  hasMaxRange : Bool
  maxRangeRead : Option ℚ
deriving DecidableEq, Repr

/-- The state of the powercap filesystem tree (`RAPL_BASE`). -/
structure PowercapFS where
  baseExists : Bool
  entries : List RaplEntry
deriving DecidableEq, Repr

/-- `EnergyReading` from `energy_meter.py`: a snapshot of energy state at a
point in time; `none` models Python `None`. -/
structure EnergyReading where
  timestamp : ℚ
  rapl_joules : Option ℚ
  cpu_time_seconds : Option ℚ
deriving DecidableEq, Repr

/-- `EnergyMeasurement` from `energy_meter.py`: energy and timing result
for one measurement interval. -/
structure EnergyMeasurement where
  duration_seconds : ℚ
  energy_joules : ℚ
  source : String
  notes : String := ""
deriving DecidableEq, Repr

/-- Ordering used by Python's `sorted` on the package paths: lexicographic
comparison of the directory names (code-point order on `List Char`). -/
def entryLe (a b : RaplEntry) : Prop := a.name.data ≤ b.name.data

instance : DecidableRel entryLe := fun a b =>
  inferInstanceAs (Decidable (a.name.data ≤ b.name.data))

/-- The generator condition of `_rapl_packages`: the name starts with
`"intel-rapl:"`, there is no further `':'` after that prefix (the Python
test `":" not in p.name[len("intel-rapl:"):]`, and `len("intel-rapl:")`
is 11), and the `energy_uj` file exists. -/
def raplPkgPred (p : RaplEntry) : Bool :=
  "intel-rapl:".data.isPrefixOf p.name.data
    && !((p.name.data.drop 11).contains ':')
    && p.hasEnergyUj

/-- `_rapl_packages`: the RAPL package directories that expose `energy_uj`
files.  Keeps exactly the entries satisfying `raplPkgPred` (sub-zones are
excluded) and sorts the result as Python's `sorted` does. -/
def _rapl_packages (fs : PowercapFS) : List RaplEntry :=
  if fs.baseExists then
    List.insertionSort entryLe (fs.entries.filter raplPkgPred)
  else []

/-- `_read_rapl_uj`: sum `energy_uj` across all RAPL packages; `none` on
any read or parse error of any package. -/
def _read_rapl_uj : List RaplEntry → Option ℚ
  | [] => some 0
  | p :: ps =>
    match p.energyUjRead with
    | none => none
    | some v => Option.map (fun t => v + t) (_read_rapl_uj ps)

/-- The environment a single `take_reading` call observes: the powercap
tree, the monotonic clock value, and the result of the psutil CPU-time
query (`none` models any exception, psutil missing included). -/
structure Env where
  fs : PowercapFS
  monotonicNow : ℚ
  cpuTimeRead : Option ℚ
deriving DecidableEq, Repr

/-- `_read_cpu_time`: total CPU time (user + system, children included) in
seconds, or `none` on any exception.  The whole body is one psutil query
wrapped in `try/except`, so it is exactly the environment's answer. -/
def _read_cpu_time (env : Env) : Option ℚ := env.cpuTimeRead

/-- `take_reading`: capture current energy state (RAPL counters + CPU
time). -/
def take_reading (env : Env) : EnergyReading :=
  let packages := _rapl_packages env.fs
  let rapl_uj := if packages.isEmpty then none else _read_rapl_uj packages
  { timestamp := env.monotonicNow
    rapl_joules := Option.map (fun v => v / 1000000) rapl_uj
    cpu_time_seconds := _read_cpu_time env }

/-- The `sum(... for p in packages if (p / "max_energy_range_uj").exists())`
expression inside the wrap-around branch of `compute_energy`: packages
without the file are skipped silently; a read or parse failure of an
existing file aborts the whole sum (`none`, the `except` path). -/
def sumMaxRanges : List RaplEntry → Option ℚ
  | [] => some 0
  | p :: ps =>
    if p.hasMaxRange then
      match p.maxRangeRead with
      | none => none
      | some v => Option.map (fun t => v + t) (sumMaxRanges ps)
    else sumMaxRanges ps

/-- The wrap-around correction applied to the RAPL delta in
`compute_energy`: a negative delta gets the joule-converted sum of the
packages' `max_energy_range_uj` added, or is replaced by its absolute
value when that sum raised. -/
def raplCorrected (fs : PowercapFS) (delta : ℚ) : ℚ :=
  if delta < 0 then
    match sumMaxRanges (_rapl_packages fs) with
    | some max_uj => delta + max_uj / 1000000
    | none => |delta|
  else delta

/-- Digits of a natural number, zero-padded on the left to width `k`. -/
def padZeros (k : Nat) (s : String) : String :=
  String.mk (List.replicate (k - s.length) '0') ++ s

/-- Model of Python's `format(q, ".3f")` used in the notes strings: fixed
three decimal places. -/
def fmt3 (q : ℚ) : String :=
  let n : ℤ := Int.fdiv (2000 * q.num + (q.den : ℤ)) (2 * (q.den : ℤ))
  let sign := if n < 0 then "-" else ""
  let m := n.natAbs
  sign ++ toString (m / 1000) ++ "." ++ padZeros 3 (toString (m % 1000))

/-- Fuel-bounded search for the smallest `k ≥ 1` with `den ∣ 10 ^ k`. -/
def pyFloatStrAux (den : Nat) : Nat → Nat → Nat
  | 0, k => k
  | fuel + 1, k => if 10 ^ k % den = 0 then k else pyFloatStrAux den fuel (k + 1)

/-- Model of Python's `str` on a float with a short exact decimal
expansion (the only floats the notes strings interpolate): the exact
decimal digits, with at least one fractional digit, so `str(10.0)` is
`"10.0"`. -/
def pyFloatStr (q : ℚ) : String :=
  let sign := if q.num < 0 then "-" else ""
  let m := q.num.natAbs
  let k := pyFloatStrAux q.den 60 1
  let n := m * (10 ^ k / q.den)
  sign ++ toString (n / 10 ^ k) ++ "." ++ padZeros k (toString (n % 10 ^ k))

/-- Default `tdp_watts` (`DEFAULT_TDP_WATTS`). -/
def DEFAULT_TDP_WATTS : ℚ := 15

/-- `compute_energy`: energy consumed between two readings, by the tiered
policy (RAPL counters, then CPU-time estimate, then elapsed-time
estimate).  `fs` is the powercap tree the wrap-around branch re-reads. -/
def compute_energy (fs : PowercapFS) (start end_ : EnergyReading)
    (tdp_watts : ℚ) : EnergyMeasurement :=
  match start.rapl_joules, end_.rapl_joules with
  | some s, some e =>
      { duration_seconds := end_.timestamp - start.timestamp
        energy_joules := raplCorrected fs (e - s)
        source := "rapl" }
  | _, _ =>
    match start.cpu_time_seconds, end_.cpu_time_seconds with
    | some cs, some ce =>
        { duration_seconds := end_.timestamp - start.timestamp
          energy_joules := (ce - cs) * tdp_watts
          source := "cpu_time_estimate"
          notes := "Estimated using cpu_time=" ++ fmt3 (ce - cs)
            ++ "s × tdp=" ++ pyFloatStr tdp_watts ++ "W" }
    | _, _ =>
        { duration_seconds := end_.timestamp - start.timestamp
          energy_joules := (end_.timestamp - start.timestamp) * tdp_watts
          source := "elapsed_time_estimate"
          notes := "Estimated using elapsed="
            ++ fmt3 (end_.timestamp - start.timestamp)
            ++ "s × tdp=" ++ pyFloatStr tdp_watts ++ "W (no CPU time available)" }

/-! ## Concrete environments and readings used as witnesses below -/

/-- A machine without a powercap tree. -/
def fsNone : PowercapFS := ⟨false, []⟩

/-- One RAPL package whose `max_energy_range_uj` file does not exist. -/
def fsC3 : PowercapFS := ⟨true, [⟨"intel-rapl:0", true, some 100, false, none⟩]⟩

/-- One RAPL package with a readable `max_energy_range_uj` of
262143328850 µJ (the value the repository's wrap-around test uses). -/
def fsC3w : PowercapFS :=
  ⟨true, [⟨"intel-rapl:0", true, some 100000, true, some 262143328850⟩]⟩

/-- An environment whose single package's `energy_uj` read fails. -/
def envC7 : Env := ⟨⟨true, [⟨"intel-rapl:0", true, none, false, none⟩]⟩, 0, none⟩

/-- A sub-zone directory (`intel-rapl:0:0`). -/
def subEnt : RaplEntry := ⟨"intel-rapl:0:0", true, some 200, false, none⟩

/-- A powercap tree listing two packages (out of name order) and a
sub-zone between them. -/
def fsC8 : PowercapFS :=
  ⟨true, [⟨"intel-rapl:1", true, some 1, false, none⟩, subEnt,
    ⟨"intel-rapl:0", true, some 2, false, none⟩]⟩

/-- An environment with no powercap tree and no CPU-time facility. -/
def envC9 : Env := ⟨⟨false, []⟩, 7, none⟩

/-- A powercap tree with one fully readable package. -/
def fsC10 : PowercapFS := ⟨true, [⟨"intel-rapl:0", true, some 5, true, some 7⟩]⟩

/-! ## Branch lemmas for `compute_energy` -/

/-- When both readings carry a RAPL value, the hardware tier is taken. -/
theorem compute_energy_rapl (fs : PowercapFS) (s e : EnergyReading) (tdp a b : ℚ)
    (hs : s.rapl_joules = some a) (he : e.rapl_joules = some b) :
    compute_energy fs s e tdp =
      { duration_seconds := e.timestamp - s.timestamp
        energy_joules := raplCorrected fs (b - a)
        source := "rapl"
        notes := "" } := by
  simp [compute_energy, hs, he]

/-- When at least one RAPL value is absent and both CPU times are present,
the CPU-time tier is taken. -/
theorem compute_energy_cpu (fs : PowercapFS) (s e : EnergyReading) (tdp cs ce : ℚ)
    (hr : s.rapl_joules = none ∨ e.rapl_joules = none)
    (h1 : s.cpu_time_seconds = some cs) (h2 : e.cpu_time_seconds = some ce) :
    compute_energy fs s e tdp =
      { duration_seconds := e.timestamp - s.timestamp
        energy_joules := (ce - cs) * tdp
        source := "cpu_time_estimate"
        notes := "Estimated using cpu_time=" ++ fmt3 (ce - cs)
          ++ "s × tdp=" ++ pyFloatStr tdp ++ "W" } := by
  cases hsr : s.rapl_joules <;> cases her : e.rapl_joules <;>
    simp_all [compute_energy]

/-- When neither the RAPL pair nor the CPU-time pair is present, the
elapsed-time tier is taken. -/
theorem compute_energy_elapsed (fs : PowercapFS) (s e : EnergyReading) (tdp : ℚ)
    (hr : s.rapl_joules = none ∨ e.rapl_joules = none)
    (hc : s.cpu_time_seconds = none ∨ e.cpu_time_seconds = none) :
    compute_energy fs s e tdp =
      { duration_seconds := e.timestamp - s.timestamp
        energy_joules := (e.timestamp - s.timestamp) * tdp
        source := "elapsed_time_estimate"
        notes := "Estimated using elapsed=" ++ fmt3 (e.timestamp - s.timestamp)
          ++ "s × tdp=" ++ pyFloatStr tdp ++ "W (no CPU time available)" } := by
  cases hsr : s.rapl_joules <;> cases her : e.rapl_joules <;>
    cases hsc : s.cpu_time_seconds <;> cases hec : e.cpu_time_seconds <;>
    simp_all [compute_energy]

/-- A non-negative delta is used unchanged: the wrap-around branch is
not entered. -/
theorem raplCorrected_of_nonneg (fs : PowercapFS) (d : ℚ) (h : 0 ≤ d) :
    raplCorrected fs d = d := by
  unfold raplCorrected
  rw [if_neg (not_lt.2 h)]

/-- `_read_rapl_uj` fails exactly when some package's read fails. -/
theorem _read_rapl_uj_eq_none_iff (l : List RaplEntry) :
    _read_rapl_uj l = none ↔ ∃ p ∈ l, p.energyUjRead = none := by
  induction l with
  | nil => simp [_read_rapl_uj]
  | cons p ps ih =>
    cases hp : p.energyUjRead with
    | none => simp [_read_rapl_uj, hp]
    | some v => simp [_read_rapl_uj, hp, ih]

/-! ## Claims -/

/-- C2: when both readings carry a RAPL value and the delta
`end.rapl_joules - start.rapl_joules` is non-negative, `compute_energy`
returns source `"rapl"`, exactly that delta as `energy_joules`, and an
empty notes string. -/
theorem C2_rapl_exact (fs : PowercapFS) (s e : EnergyReading) (tdp a b : ℚ)
    (hs : s.rapl_joules = some a) (he : e.rapl_joules = some b)
    (hd : 0 ≤ b - a) :
    (compute_energy fs s e tdp).source = "rapl" ∧
    (compute_energy fs s e tdp).energy_joules = b - a ∧
    (compute_energy fs s e tdp).notes = "" := by
  rw [compute_energy_rapl fs s e tdp a b hs he]
  exact ⟨rfl, raplCorrected_of_nonneg fs _ hd, rfl⟩

/-- C2 witness: rapl 100 J → 200 J over 5 s gives 100 J from the hardware
tier with empty notes. -/
theorem C2_witness :
    (compute_energy fsNone ⟨0, some 100, none⟩ ⟨5, some 200, none⟩ 15).source = "rapl" ∧
    (compute_energy fsNone ⟨0, some 100, none⟩ ⟨5, some 200, none⟩ 15).energy_joules = 100 ∧
    (compute_energy fsNone ⟨0, some 100, none⟩ ⟨5, some 200, none⟩ 15).notes = "" := by
  have h := C2_rapl_exact fsNone ⟨0, some 100, none⟩ ⟨5, some 200, none⟩ 15
    100 200 rfl rfl (by norm_num)
  exact ⟨h.1, h.2.1.trans (by norm_num), h.2.2⟩

/-- C4: when at least one `rapl_joules` is absent and both
`cpu_time_seconds` are present, `compute_energy` returns source
`"cpu_time_estimate"`, energy `cpu_delta * tdp_watts`, and a notes string
recording the cpu delta (3 decimal places) and the tdp. -/
theorem C4_cpu_estimate (fs : PowercapFS) (s e : EnergyReading) (tdp cs ce : ℚ)
    (hr : s.rapl_joules = none ∨ e.rapl_joules = none)
    (h1 : s.cpu_time_seconds = some cs) (h2 : e.cpu_time_seconds = some ce) :
    (compute_energy fs s e tdp).source = "cpu_time_estimate" ∧
    (compute_energy fs s e tdp).energy_joules = (ce - cs) * tdp ∧
    (compute_energy fs s e tdp).notes =
      "Estimated using cpu_time=" ++ fmt3 (ce - cs) ++ "s × tdp="
        ++ pyFloatStr tdp ++ "W" := by
  rw [compute_energy_cpu fs s e tdp cs ce hr h1 h2]
  exact ⟨rfl, rfl, rfl⟩

/-- C4 witness: cpu time 1 s → 3 s with tdp 10 W gives 20 J and the
documented notes string. -/
theorem C4_witness :
    (compute_energy fsNone ⟨0, none, some 1⟩ ⟨5, none, some 3⟩ 10).source = "cpu_time_estimate" ∧
    (compute_energy fsNone ⟨0, none, some 1⟩ ⟨5, none, some 3⟩ 10).energy_joules = 20 ∧
    (compute_energy fsNone ⟨0, none, some 1⟩ ⟨5, none, some 3⟩ 10).notes =
      "Estimated using cpu_time=2.000s × tdp=10.0W" := by
  have h := C4_cpu_estimate fsNone ⟨0, none, some 1⟩ ⟨5, none, some 3⟩ 10 1 3
    (Or.inl rfl) rfl rfl
  refine ⟨h.1, h.2.1.trans (by norm_num), h.2.2.trans ?_⟩
  have h2 : (3 : ℚ) - 1 = 2 := by norm_num
  rw [h2]
  decide

/-- C5: when neither a RAPL pair nor a CPU-time pair is present,
`compute_energy` returns source `"elapsed_time_estimate"` and energy
`(end.timestamp - start.timestamp) * tdp_watts`. -/
theorem C5_elapsed_estimate (fs : PowercapFS) (s e : EnergyReading) (tdp : ℚ)
    (hr : s.rapl_joules = none ∨ e.rapl_joules = none)
    (hc : s.cpu_time_seconds = none ∨ e.cpu_time_seconds = none) :
    (compute_energy fs s e tdp).source = "elapsed_time_estimate" ∧
    (compute_energy fs s e tdp).energy_joules = (e.timestamp - s.timestamp) * tdp := by
  rw [compute_energy_elapsed fs s e tdp hr hc]
  exact ⟨rfl, rfl⟩

/-- C5 witness: a 4-second interval with no optional signals and tdp 15 W
gives 60 J from the elapsed-time tier. -/
theorem C5_witness :
    (compute_energy fsNone ⟨0, none, none⟩ ⟨4, none, none⟩ 15).source = "elapsed_time_estimate" ∧
    (compute_energy fsNone ⟨0, none, none⟩ ⟨4, none, none⟩ 15).energy_joules = 60 := by
  have h := C5_elapsed_estimate fsNone ⟨0, none, none⟩ ⟨4, none, none⟩ 15
    (Or.inl rfl) (Or.inl rfl)
  exact ⟨h.1, h.2.trans (by norm_num)⟩

/-- C6: `duration_seconds` is `end.timestamp - start.timestamp` in every
tier; in particular a negative difference is passed through unchanged
(`compute_energy` is total, nothing is raised or clamped). -/
theorem C6_duration (fs : PowercapFS) (s e : EnergyReading) (tdp : ℚ) :
    (compute_energy fs s e tdp).duration_seconds = e.timestamp - s.timestamp := by
  cases hsr : s.rapl_joules <;> cases her : e.rapl_joules <;>
    cases hsc : s.cpu_time_seconds <;> cases hec : e.cpu_time_seconds <;>
    simp [compute_energy, hsr, her, hsc, hec]

/-- C1 counterexample: with readings whose CPU time decreases from start
to end (rapl absent), `compute_energy` returns a negative
`energy_joules`, so the claim quantified over every pair of readings
fails. -/
theorem C1_counterexample :
    (compute_energy fsNone ⟨0, none, some 3⟩ ⟨1, none, some 1⟩ 10).energy_joules < 0 := by
  rw [compute_energy_cpu fsNone ⟨0, none, some 3⟩ ⟨1, none, some 1⟩ 10 3 1
    (Or.inl rfl) rfl rfl]
  norm_num

/-- C1 (amended): `energy_joules ≥ 0` holds whenever `tdp_watts ≥ 0`,
`end.timestamp ≥ start.timestamp`, and each optional field that is
present in both readings does not decrease from start to end. -/
theorem C1_energy_nonneg (fs : PowercapFS) (s e : EnergyReading) (tdp : ℚ)
    (htdp : 0 ≤ tdp) (hts : s.timestamp ≤ e.timestamp)
    (hrapl : ∀ a b, s.rapl_joules = some a → e.rapl_joules = some b → a ≤ b)
    (hcpu : ∀ a b, s.cpu_time_seconds = some a → e.cpu_time_seconds = some b → a ≤ b) :
    0 ≤ (compute_energy fs s e tdp).energy_joules := by
  have est : (s.rapl_joules = none ∨ e.rapl_joules = none) →
      0 ≤ (compute_energy fs s e tdp).energy_joules := by
    intro hr
    cases hsc : s.cpu_time_seconds with
    | none =>
      rw [compute_energy_elapsed fs s e tdp hr (Or.inl hsc)]
      exact mul_nonneg (sub_nonneg.2 hts) htdp
    | some cs =>
      cases hec : e.cpu_time_seconds with
      | none =>
        rw [compute_energy_elapsed fs s e tdp hr (Or.inr hec)]
        exact mul_nonneg (sub_nonneg.2 hts) htdp
      | some ce =>
        rw [compute_energy_cpu fs s e tdp cs ce hr hsc hec]
        exact mul_nonneg (sub_nonneg.2 (hcpu cs ce hsc hec)) htdp
  cases hsr : s.rapl_joules with
  | none => exact est (Or.inl hsr)
  | some a =>
    cases her : e.rapl_joules with
    | none => exact est (Or.inr her)
    | some b =>
      rw [compute_energy_rapl fs s e tdp a b hsr her]
      show 0 ≤ raplCorrected fs (b - a)
      rw [raplCorrected_of_nonneg fs _ (sub_nonneg.2 (hrapl a b hsr her))]
      exact sub_nonneg.2 (hrapl a b hsr her)

/-- C1 witness: monotone readings with cpu time 1 s → 3 s and tdp 10 W
give a non-negative energy. -/
theorem C1_witness :
    0 ≤ (compute_energy fsNone ⟨0, none, some 1⟩ ⟨2, none, some 3⟩ 10).energy_joules :=
  C1_energy_nonneg fsNone ⟨0, none, some 1⟩ ⟨2, none, some 3⟩ 10
    (by norm_num) (by norm_num)
    (fun a b h1 _ => by simp at h1)
    (fun a b h1 h2 => by
      rw [← Option.some.inj h1, ← Option.some.inj h2]
      norm_num)

/-- C3 counterexample: one discovered package whose
`max_energy_range_uj` file does not exist.  The max-range value cannot be
read, yet the result is the uncorrected negative delta `-5`, not
`abs(delta) = 5` as the claim states: the missing file is skipped by the
`if (p / "max_energy_range_uj").exists()` guard, so the sum is `0` and no
exception triggers the `abs` fallback. -/
theorem C3_counterexample :
    (compute_energy fsC3 ⟨0, some 10, none⟩ ⟨1, some 5, none⟩ 15).energy_joules = -5 ∧
    ¬ ((-5 : ℚ) = |(-5 : ℚ)|) := by
  constructor
  · rw [compute_energy_rapl fsC3 ⟨0, some 10, none⟩ ⟨1, some 5, none⟩ 15 10 5 rfl rfl]
    show raplCorrected fsC3 (5 - 10) = -5
    have hsum : sumMaxRanges (_rapl_packages fsC3) = some 0 := by decide
    unfold raplCorrected
    rw [if_pos (by norm_num : (5 : ℚ) - 10 < 0), hsum]
    norm_num
  · norm_num

/-- C3 (amended): on a negative delta the wrap branch re-enumerates the
sources and adds the joule-converted sum of the `max_energy_range_uj`
values of those sources whose max-range file exists (a source without the
file is skipped, contributing zero); the result is `abs(delta)` exactly
when reading some existing max-range file fails. -/
theorem C3_wrap_correction (fs : PowercapFS) (s e : EnergyReading) (tdp a b : ℚ)
    (hs : s.rapl_joules = some a) (he : e.rapl_joules = some b)
    (hd : b - a < 0) :
    (compute_energy fs s e tdp).source = "rapl" ∧
    (∀ M, sumMaxRanges (_rapl_packages fs) = some M →
      (compute_energy fs s e tdp).energy_joules = (b - a) + M / 1000000) ∧
    (sumMaxRanges (_rapl_packages fs) = none →
      (compute_energy fs s e tdp).energy_joules = |b - a|) := by
  rw [compute_energy_rapl fs s e tdp a b hs he]
  refine ⟨rfl, ?_, ?_⟩
  · intro M hM
    show raplCorrected fs (b - a) = b - a + M / 1000000
    unfold raplCorrected
    rw [if_pos hd, hM]
  · intro hM
    show raplCorrected fs (b - a) = |b - a|
    unfold raplCorrected
    rw [if_pos hd, hM]

/-- C3 witness: the repository's wrap-around scenario — counter 262143 J
wrapping to 10 J with a readable max range of 262143328850 µJ — yields
`(10 - 262143) + 262143.32885 = 10.32885` joules from source `"rapl"`. -/
theorem C3_witness :
    (compute_energy fsC3w ⟨0, some 262143, none⟩ ⟨5, some 10, none⟩ 15).source = "rapl" ∧
    (compute_energy fsC3w ⟨0, some 262143, none⟩ ⟨5, some 10, none⟩ 15).energy_joules
      = 1032885 / 100000 := by
  have hpkg : _rapl_packages fsC3w
      = [⟨"intel-rapl:0", true, some 100000, true, some 262143328850⟩] := by decide
  have hsum : sumMaxRanges (_rapl_packages fsC3w) = some 262143328850 := by
    rw [hpkg]
    show Option.some ((262143328850 : ℚ) + 0) = some 262143328850
    norm_num
  have h := C3_wrap_correction fsC3w ⟨0, some 262143, none⟩ ⟨5, some 10, none⟩ 15
    262143 10 rfl rfl (by norm_num)
  exact ⟨h.1, (h.2.1 262143328850 hsum).trans (by norm_num)⟩

/-- C7: if the `energy_uj` read of any discovered package fails, the
whole hardware reading is absent — never a partial sum over the readable
packages. -/
theorem C7_no_partial_sum (env : Env) (p : RaplEntry)
    (hp : p ∈ _rapl_packages env.fs) (hfail : p.energyUjRead = none) :
    (take_reading env).rapl_joules = none := by
  have hne : (_rapl_packages env.fs).isEmpty = false := by
    cases h : _rapl_packages env.fs with
    | nil => rw [h] at hp; cases hp
    | cons a l => rfl
  have hread : _read_rapl_uj (_rapl_packages env.fs) = none :=
    (_read_rapl_uj_eq_none_iff _).2 ⟨p, hp, hfail⟩
  simp [take_reading, hne, hread]

/-- C7 witness: one package whose counter read fails makes the reading's
`rapl_joules` absent. -/
theorem C7_witness : (take_reading envC7).rapl_joules = none :=
  C7_no_partial_sum envC7 ⟨"intel-rapl:0", true, none, false, none⟩ (by decide) rfl

/-- C8: discovery returns only top-level package directories — every
returned entry's name starts with `"intel-rapl:"` with no further colon
and exposes `energy_uj`; any listed directory whose name has a colon after
the prefix (a sub-zone) is never returned; and the returned list is
sorted lexicographically by name, so repeated enumeration over the same
directory contents is stable. -/
theorem C8_discovery (fs : PowercapFS) :
    (∀ p ∈ _rapl_packages fs,
      "intel-rapl:".data.isPrefixOf p.name.data = true ∧
      (p.name.data.drop 11).contains ':' = false ∧
      p.hasEnergyUj = true) ∧
    (∀ p ∈ fs.entries, (p.name.data.drop 11).contains ':' = true →
      p ∉ _rapl_packages fs) ∧
    List.Sorted entryLe (_rapl_packages fs) := by
  cases hb : fs.baseExists with
  | false =>
    have h0 : _rapl_packages fs = [] := by simp [_rapl_packages, hb]
    rw [h0]
    refine ⟨?_, ?_, List.sorted_nil⟩
    · intro p hp
      exact absurd hp (List.not_mem_nil p)
    · intro p _ _
      exact List.not_mem_nil p
  | true =>
    have h1 : _rapl_packages fs
        = List.insertionSort entryLe (fs.entries.filter raplPkgPred) := by
      simp [_rapl_packages, hb]
    rw [h1]
    refine ⟨?_, ?_, ?_⟩
    · intro p hp
      rw [List.mem_insertionSort, List.mem_filter] at hp
      have hpred := hp.2
      unfold raplPkgPred at hpred
      simp only [Bool.and_eq_true, Bool.not_eq_true'] at hpred
      exact ⟨hpred.1.1, hpred.1.2, hpred.2⟩
    · intro p _ hcol hmem
      rw [List.mem_insertionSort, List.mem_filter] at hmem
      have hpred := hmem.2
      unfold raplPkgPred at hpred
      simp only [Bool.and_eq_true, Bool.not_eq_true'] at hpred
      rw [hpred.1.2] at hcol
      exact Bool.noConfusion hcol
    · haveI : IsTotal RaplEntry entryLe := ⟨fun a b => le_total a.name.data b.name.data⟩
      haveI : IsTrans RaplEntry entryLe := ⟨fun a b c hab hbc => le_trans hab hbc⟩
      exact List.sorted_insertionSort entryLe _

/-- C8 witness: with packages listed out of order and a sub-zone
`intel-rapl:0:0` between them, the sub-zone is excluded and the result is
sorted. -/
theorem C8_witness :
    subEnt ∉ _rapl_packages fsC8 ∧ List.Sorted entryLe (_rapl_packages fsC8) :=
  ⟨(C8_discovery fsC8).2.1 subEnt (by decide) (by decide), (C8_discovery fsC8).2.2⟩

/-- C9: `take_reading` is total; the timestamp is always the monotonic
clock value, the CPU-time field is exactly the facility's answer (absent
when it errors), and the hardware field is absent exactly when no package
is discovered or some discovered package's counter read fails. -/
theorem C9_take_reading_total (env : Env) :
    (take_reading env).timestamp = env.monotonicNow ∧
    (take_reading env).cpu_time_seconds = env.cpuTimeRead ∧
    ((take_reading env).rapl_joules = none ↔
      (_rapl_packages env.fs = [] ∨
        ∃ p ∈ _rapl_packages env.fs, p.energyUjRead = none)) := by
  refine ⟨rfl, rfl, ?_⟩
  cases hemp : (_rapl_packages env.fs).isEmpty with
  | true =>
    have hl : _rapl_packages env.fs = [] := by
      cases h : _rapl_packages env.fs with
      | nil => rfl
      | cons a l => rw [h] at hemp; exact Bool.noConfusion hemp
    simp [take_reading, hemp, hl]
  | false =>
    have hl : _rapl_packages env.fs ≠ [] := by
      intro h0
      rw [h0] at hemp
      exact Bool.noConfusion hemp
    simp [take_reading, hemp, Option.map_eq_none', _read_rapl_uj_eq_none_iff, hl]

/-- C9 witness: with no powercap tree and no CPU-time facility the
reading still carries its timestamp and both optional fields are
absent. -/
theorem C9_witness :
    (take_reading envC9).timestamp = 7 ∧
    (take_reading envC9).cpu_time_seconds = none ∧
    (take_reading envC9).rapl_joules = none :=
  ⟨(C9_take_reading_total envC9).1, (C9_take_reading_total envC9).2.1,
    (C9_take_reading_total envC9).2.2.mpr (Or.inl (by decide))⟩

/-- C10: outside the wrap-around branch — whenever it is not the case
that both RAPL values are present with the end value below the start
value — `compute_energy` does not depend on the filesystem: two calls
with the same readings and tdp over different filesystem states return
the same measurement. -/
theorem C10_env_independent (fs1 fs2 : PowercapFS) (s e : EnergyReading) (tdp : ℚ)
    (h : ∀ a b, s.rapl_joules = some a → e.rapl_joules = some b → a ≤ b) :
    compute_energy fs1 s e tdp = compute_energy fs2 s e tdp := by
  cases hsr : s.rapl_joules with
  | some a =>
    cases her : e.rapl_joules with
    | some b =>
      rw [compute_energy_rapl fs1 s e tdp a b hsr her,
        compute_energy_rapl fs2 s e tdp a b hsr her,
        raplCorrected_of_nonneg fs1 _ (sub_nonneg.2 (h a b hsr her)),
        raplCorrected_of_nonneg fs2 _ (sub_nonneg.2 (h a b hsr her))]
    | none =>
      cases hsc : s.cpu_time_seconds <;> cases hec : e.cpu_time_seconds <;>
        simp [compute_energy, hsr, her, hsc, hec]
  | none =>
    cases her : e.rapl_joules <;> cases hsc : s.cpu_time_seconds <;>
      cases hec : e.cpu_time_seconds <;> simp [compute_energy, hsr, her, hsc, hec]

/-- C10 witness: two different filesystem states (one with a package, one
without) give identical measurements for a non-wrapping RAPL pair. -/
theorem C10_witness :
    compute_energy fsC10 ⟨0, some 1, none⟩ ⟨2, some 3, none⟩ 15 =
      compute_energy fsNone ⟨0, some 1, none⟩ ⟨2, some 3, none⟩ 15 :=
  C10_env_independent fsC10 fsNone ⟨0, some 1, none⟩ ⟨2, some 3, none⟩ 15
    (fun a b h1 h2 => by
      rw [← Option.some.inj h1, ← Option.some.inj h2]
      norm_num)
